import Mathlib

/-!
Shallow embedding of the conversation-and-task state machine of the
Task-Agent chat client (src/index.tsx) together with proofs about its
documented behaviour.

JavaScript strings are modelled as Lean `String`s (lists of characters);
JavaScript objects used as string-keyed dictionaries are modelled as
insertion-ordered association lists whose values are `Option`-typed, so
that a key holding the value `undefined` is still a present key, exactly
as with the `in` operator and `Object.keys` in JavaScript.
-/

namespace TaskAgent

/-- Characters removed by JavaScript `String.prototype.trim` (WhiteSpace
and LineTerminator code points). -/
def isJsWs (c : Char) : Bool :=
  c == ' ' || c == '\t' || c == '\n' || c == '\r' ||
  c == '\x0b' || c == '\x0c' ||
  c == ' ' || c == ' ' ||
  (0x2000 ≤ c.toNat && c.toNat ≤ 0x200A) ||
  c == ' ' || c == ' ' || c == ' ' ||
  c == ' ' || c == '　' || c == '﻿'

/-- JavaScript trim on a character list: drop leading and trailing whitespace. -/
def trimChars (l : List Char) : List Char :=
  ((l.dropWhile isJsWs).reverse.dropWhile isJsWs).reverse

/-- JavaScript `s.trim()`. -/
def jsTrim (s : String) : String :=
  String.mk (trimChars s.data)

/-- JavaScript truthiness of a `string | null` value: `null` and the empty
string are falsy, every other string is truthy. -/
def optTruthy : Option String → Bool
  | none => false
  | some s => s != ""

/-- A JavaScript object used as a string-keyed record, in insertion order.
A value `none` models a key explicitly set to `undefined`: the key is
still present for the `in` operator and for `Object.keys`. -/
abbrev JsRecord (α : Type) := List (String × Option α)

/-- JavaScript `k in obj`. -/
def jsHasKey {α : Type} : JsRecord α → String → Bool
  | [], _ => false
  | e :: rest, k => (e.1 == k) || jsHasKey rest k

/-- JavaScript `obj[k]` (an absent key reads as `undefined`). -/
def jsGet {α : Type} : JsRecord α → String → Option α
  | [], _ => none
  | e :: rest, k => if e.1 = k then e.2 else jsGet rest k

/-- JavaScript `obj[k] = v`: overwrite an existing key in place, otherwise
append the key at the end (insertion order). -/
def jsSet {α : Type} : JsRecord α → String → Option α → JsRecord α
  | [], k, v => [(k, v)]
  | e :: rest, k, v => if e.1 = k then (k, v) :: rest else e :: jsSet rest k v

/-- JavaScript `delete obj[k]`. -/
def jsDelete {α : Type} : JsRecord α → String → JsRecord α
  | [], _ => []
  | e :: rest, k => if e.1 = k then jsDelete rest k else e :: jsDelete rest k

/-- JavaScript `Object.keys(obj)`. -/
def jsKeys {α : Type} (m : JsRecord α) : List String :=
  m.map Prod.fst

/-- Message author, the `role` union type of src/index.tsx. -/
inductive Role where
  | user
  | model
deriving DecidableEq

/-- The `web` part of a grounding chunk (`GroundingChunkWeb` in src/index.tsx). -/
structure GroundingChunkWeb where
  uri : Option String
  title : Option String
deriving DecidableEq

/-- A single grounding citation (`GroundingChunk` in src/index.tsx). -/
structure GroundingChunk where
  web : Option GroundingChunkWeb
deriving DecidableEq

/-- One chat message (`HistoryEntry` in src/index.tsx); `groundingChunks`
is an optional field. -/
structure HistoryEntry where
  role : Role
  text : String
  groundingChunks : Option (List GroundingChunk)
deriving DecidableEq

/-- A conversation (`Conversation` in src/index.tsx). -/
structure Conversation where
  id : String
  title : String
  history : List HistoryEntry
  customInstructions : String
  createdAt : Nat
deriving DecidableEq

/-- Task status (`TaskStatus` in src/index.tsx: todo, in-progress, done). -/
inductive TaskStatus where
  | todo
  | inProgress
  | done
deriving DecidableEq

/-- Task priority (`TaskPriority` in src/index.tsx). -/
inductive TaskPriority where
  | low
  | medium
  | high
deriving DecidableEq

/-- A task (`Task` in src/index.tsx). -/
structure Task where
  id : String
  title : String
  notes : String
  status : TaskStatus
  priority : TaskPriority
  dueDate : Option String
  createdAt : Nat
  sourceConversationId : Option String
  sourceMessageText : Option String
deriving DecidableEq

/-- Application settings (`AppSettings` in src/index.tsx). -/
structure AppSettings where
  nickname : String
  customInstructions : String
  agentName : String
  agentAvatarUrl : String
  searchArchived : Bool
  isSidebarPinned : Bool
deriving DecidableEq

/-- The aggregate application state (`AppState` in src/index.tsx). -/
structure AppState where
  conversations : JsRecord Conversation
  archivedConversations : JsRecord Conversation
  activeConversationId : Option String
  tasks : List Task
  settings : AppSettings
deriving DecidableEq

/-- The default settings object built by `getInitialState` (src/index.tsx
lines 187-202); `DEFAULT_AGENT_NAME` is `"Gemini"`. -/
def defaultSettings : AppSettings :=
  { nickname := "You"
    customInstructions := ""
    agentName := "Gemini"
    agentAvatarUrl := ""
    searchArchived := false
    isSidebarPinned := false }

/-- The full initial state built by `getInitialState` (src/index.tsx). -/
def getInitialState : AppState :=
  { conversations := []
    archivedConversations := []
    activeConversationId := none
    tasks := []
    settings := defaultSettings }

/-- One streamed response chunk observed by the `for await` loop of
`handleFormSubmit` (src/index.tsx lines 535-545): its `text`, and the
value of `chunk.candidates?.[0]?.groundingMetadata?.groundingChunks`,
which is an optional array (`none` models `undefined`). -/
structure StreamChunk where
  text : String
  grounding : Option (List GroundingChunk)
deriving DecidableEq

/-- The running buffer `modelResponse` after the loop of
`handleFormSubmit` has consumed `chunks`: the concatenation of the chunk
texts (`modelResponse += chunkText`). -/
def streamText (chunks : List StreamChunk) : String :=
  chunks.foldl (fun acc c => acc ++ c.text) ""

/-- The `groundingChunks` variable after the loop of `handleFormSubmit`
has consumed `chunks`: it starts as `[]` and is overwritten by every
chunk whose grounding array is present (in JavaScript an empty array is
truthy, so a present-but-empty array also overwrites). -/
def finalGrounding (chunks : List StreamChunk) : List GroundingChunk :=
  chunks.foldl (fun acc c => match c.grounding with | some g => g | none => acc) []

/-- The text of the error message shown by the catch block of
`handleFormSubmit` (src/index.tsx line 570). Note that in the source it
is passed to `appendMessage`, which only builds DOM nodes; it is never
pushed onto `activeConvo.history`. -/
def errorMessageText : String := "Sorry, I encountered an error. Please try again."

/-- Effect of `handleFormSubmit` (src/index.tsx lines 485-577) on the
active conversation's `history` array. `rawInput` is the chat input
value (trimmed by the function; an empty result aborts), `consumed` are
the stream chunks the `for await` loop processed, and `streamFailed`
says whether the try block threw (before, during or after the stream)
instead of running to completion. The user entry is pushed before the
network request; the model entry is pushed only on stream exhaustion; on
failure the catch block only renders an error message in the DOM, so the
history is left with just the user entry. -/
def handleFormSubmitHistory (history : List HistoryEntry) (rawInput : String)
    (consumed : List StreamChunk) (streamFailed : Bool) : List HistoryEntry :=
  let userMessage := jsTrim rawInput
  if userMessage = "" then history
  else
    let afterUser := history ++ [{ role := Role.user, text := userMessage, groundingChunks := none }]
    if streamFailed then afterUser
    else afterUser ++
      [{ role := Role.model, text := streamText consumed,
         groundingChunks := some (finalGrounding consumed) }]

/-- The `generateConversationTitle` workflow (src/index.tsx lines
579-603). `response` is the outcome of the model call: `none` when
`ai.models.generateContent` threw (the catch block only logs), `some t`
when it returned text `t`. On success the title is the trimmed text with
all double quotes removed (`response.text.trim().replace(/"/g, '')`). -/
def generateConversationTitle (s : AppState) (convoId : String)
    (response : Option String) : AppState :=
  match jsGet s.conversations convoId with
  | none => s
  | some convo =>
    if convo.history.length < 2 then s
    else
      match response with
      | none => s
      | some text =>
        let title := String.mk ((trimChars text.data).filter (fun c => c ≠ '"'))
        { s with conversations := jsSet s.conversations convoId (some { convo with title := title }) }

/-- The `toggleArchiveConversation` operation (src/index.tsx lines
652-672). If the id is archived it is moved back to the active
partition, and becomes the active conversation when none was set
(JavaScript falsiness of `state.activeConversationId`); otherwise it is
moved to the archived partition, and if it was the active conversation
the first remaining active key (or `null`) becomes active. -/
def toggleArchiveConversation (id : String) (s : AppState) : AppState :=
  if jsHasKey s.archivedConversations id then
    let convo := jsGet s.archivedConversations id
    let archived := jsDelete s.archivedConversations id
    let convos := jsSet s.conversations id convo
    let active := if optTruthy s.activeConversationId then s.activeConversationId else some id
    { s with conversations := convos, archivedConversations := archived,
             activeConversationId := active }
  else
    let convo := jsGet s.conversations id
    let convos := jsDelete s.conversations id
    let archived := jsSet s.archivedConversations id convo
    let active :=
      if s.activeConversationId = some id then
        match jsKeys convos with
        | [] => none
        | k :: _ => some k
      else s.activeConversationId
    { s with conversations := convos, archivedConversations := archived,
             activeConversationId := active }

/-- The `deleteConversation` operation (src/index.tsx lines 637-650).
`confirmed` is the result of the `confirm(...)` dialog; a refusal
returns early. The entry is deleted from the chosen partition and, if it
was the active conversation, the first remaining active key (or `null`)
becomes active. -/
def deleteConversation (id : String) (isArchived : Bool) (confirmed : Bool)
    (s : AppState) : AppState :=
  if confirmed then
    let s1 :=
      if isArchived then { s with archivedConversations := jsDelete s.archivedConversations id }
      else { s with conversations := jsDelete s.conversations id }
    if s1.activeConversationId = some id then
      { s1 with activeConversationId :=
          match jsKeys s1.conversations with
          | [] => none
          | k :: _ => some k }
    else s1
  else s

/-- Kind of a toast notification (`showNotification`'s `type` parameter). -/
inductive NoticeKind where
  | success
  | error
  | info
deriving DecidableEq

/-- The raw values read from the task form fields by
`handleTaskFormSubmit` (src/index.tsx lines 955-962), before trimming. -/
structure TaskFormInput where
  id : String
  title : String
  notes : String
  status : TaskStatus
  priority : TaskPriority
  dueDate : String
deriving DecidableEq

/-- Outcome of `handleTaskFormSubmit`: the resulting state, whether
`saveState()` ran (a persistence write), and the notification shown. -/
structure TaskSubmitResult where
  state : AppState
  saved : Bool
  notice : Option (String × NoticeKind)
deriving DecidableEq

/-- Replace the first task whose id matches `tid` (JavaScript mutates the
object returned by `find`/located by `findIndex`, i.e. the first match). -/
def updateFirstTask : List Task → String → (Task → Task) → List Task
  | [], _, _ => []
  | t :: ts, tid, f => if t.id == tid then f t :: ts else t :: updateFirstTask ts tid f

/-- Whether some task in the list has the given id (`findIndex(...) > -1`). -/
def hasTaskWithId (ts : List Task) (tid : String) : Bool :=
  ts.any (fun t => t.id == tid)

/-- The `handleTaskFormSubmit` operation (src/index.tsx lines 953-991).
`editingTaskId` is the module-level editing flag (`string | null`,
tested for JavaScript truthiness); `now` models `Date.now()`; the data
attributes `srcConvoId` and `srcMessage` are dataset strings (`""` when
unset, turned into `null` by `|| null`). An empty trimmed title is
rejected with an error notification before any mutation and before any
`saveState()` call. -/
def handleTaskFormSubmit (s : AppState) (editingTaskId : Option String)
    (input : TaskFormInput) (now : Nat) (srcConvoId srcMessage : String) :
    TaskSubmitResult :=
  let titleT := jsTrim input.title
  let notesT := jsTrim input.notes
  let dueDateV : Option String := if input.dueDate = "" then none else some input.dueDate
  if titleT = "" then
    { state := s, saved := false, notice := some ("Task title cannot be empty", NoticeKind.error) }
  else
    let applyForm : Task → Task := fun t =>
      { t with id := input.id, title := titleT, notes := notesT,
               status := input.status, priority := input.priority, dueDate := dueDateV }
    if optTruthy editingTaskId then
      let tid := editingTaskId.getD ""
      if hasTaskWithId s.tasks tid then
        { state := { s with tasks := updateFirstTask s.tasks tid applyForm }
          saved := true
          notice := some ("Task updated", NoticeKind.success) }
      else
        { state := s, saved := true, notice := none }
    else
      let newTask : Task :=
        { id := "task_" ++ toString now
          title := titleT
          notes := notesT
          status := input.status
          priority := input.priority
          dueDate := dueDateV
          createdAt := now
          sourceConversationId := if srcConvoId = "" then none else some srcConvoId
          sourceMessageText := if srcMessage = "" then none else some srcMessage }
      { state := { s with tasks := s.tasks ++ [newTask] }
        saved := true
        notice := some ("Task created", NoticeKind.success) }

/-- JavaScript `s.split('\n')` on a character list: always returns at
least one (possibly empty) segment. -/
def splitNl : List Char → List (List Char)
  | [] => [[]]
  | c :: cs =>
    match splitNl cs with
    | [] => [[]]
    | l :: ls => if c = '\n' then [] :: l :: ls else (c :: l) :: ls

/-- JavaScript `lines.join('\n')` on character lists. -/
def joinNl : List (List Char) → List Char
  | [] => []
  | [l] => l
  | l :: l2 :: ls => l ++ '\n' :: joinNl (l2 :: ls)

/-- The part of a line captured by the regex group `(.*)`: JavaScript `.`
matches everything except line terminators. -/
def regexDotText (l : List Char) : List Char :=
  l.takeWhile (fun c => !(c == '\n' || c == '\r' || c == ' ' || c == ' '))

/-- Matching of a (trimmed) line against the checklist regex
`/^- \[( |x)\] (.*)/` used by `parseAndRenderSubtasks` (src/index.tsx
line 794): the line must start with `- [ ] ` or `- [x] `, and the
captured text is the remainder up to a line terminator. -/
def matchChecklist (l : List Char) : Option (Bool × List Char) :=
  if List.isPrefixOf "- [ ] ".data l then some (false, regexDotText (l.drop 6))
  else if List.isPrefixOf "- [x] ".data l then some (true, regexDotText (l.drop 6))
  else none

/-- The decoder of `parseAndRenderSubtasks` (src/index.tsx lines
785-823): split the notes on newlines, trim each line, keep the lines
matching the checklist regex, in document order, as pairs of
(checked, text). -/
def decodeSubtasks (notes : String) : List (Bool × String) :=
  (splitNl notes.data).filterMap (fun line =>
    (matchChecklist (trimChars line)).map (fun p => (p.1, String.mk p.2)))

/-- The line predicate used by the subtask-toggle handler (src/index.tsx
line 1315): `line.trim().startsWith('- [')`. Note this is looser than
the decoder's regex. -/
def isTogglerLine (l : List Char) : Bool :=
  List.isPrefixOf "- [".data (trimChars l)

/-- JavaScript `s.replace(pat, repl)` with a string pattern: replace the
first occurrence only, leave the string unchanged when absent. -/
def replaceFirst (pat repl : List Char) : List Char → List Char
  | [] => []
  | c :: cs =>
    if List.isPrefixOf pat (c :: cs) then repl ++ (c :: cs).drop pat.length
    else c :: replaceFirst pat repl cs

/-- The rewrite applied to the located line (src/index.tsx lines
1318-1320): `line.replace('[ ]', '[x]')` when the checkbox is now
checked, `line.replace('[x]', '[ ]')` otherwise. -/
def applyToggle (checked : Bool) (l : List Char) : List Char :=
  if checked then replaceFirst "[ ]".data "[x]".data l
  else replaceFirst "[x]".data "[ ]".data l

/-- The scan of the toggle handler (src/index.tsx lines 1311-1324):
walk the lines, counting only those whose trimmed form starts with
`- [`; rewrite the line whose ordinal equals `subtaskIndex` and stop
(the source breaks out of the loop). `current` is the ordinal of the
next such line (the source's `currentSubtask` counter after `++`). -/
def toggleLinesFrom (checked : Bool) (subtaskIndex current : Nat) :
    List (List Char) → List (List Char)
  | [] => []
  | l :: ls =>
    if isTogglerLine l then
      if current = subtaskIndex then applyToggle checked l :: ls
      else l :: toggleLinesFrom checked subtaskIndex (current + 1) ls
    else l :: toggleLinesFrom checked subtaskIndex current ls

/-- Effect of the subtask-toggle handler on a task's `notes` string
(src/index.tsx lines 1311-1325): split on newlines, rewrite the located
line, join back with newlines. -/
def toggleSubtaskNotes (notes : String) (subtaskIndex : Nat) (checked : Bool) : String :=
  String.mk (joinNl (toggleLinesFrom checked subtaskIndex 0 (splitNl notes.data)))

/-- Number of lines of `notes` whose trimmed form starts with `- [`,
i.e. the number of lines the toggle handler counts. -/
def countTogglerLines (notes : String) : Nat :=
  (splitNl notes.data).countP isTogglerLine

/-- The whole subtask-toggle handler on the application state
(src/index.tsx lines 1303-1329): find the task by id (first match,
return unchanged when absent) and rewrite its notes; nothing else in
the state is touched. -/
def toggleSubtaskState (s : AppState) (taskId : String) (subtaskIndex : Nat)
    (checked : Bool) : AppState :=
  match s.tasks.find? (fun t => t.id == taskId) with
  | none => s
  | some _ =>
    let rewrite : Task → Task := fun t =>
      { t with notes := toggleSubtaskNotes t.notes subtaskIndex checked }
    { s with tasks := updateFirstTask s.tasks taskId rewrite }

/-- The `settings` object of a persisted snapshot, as parsed from JSON:
every known field may be absent, and unknown fields (`extra`) are
enumerable own properties that object spread copies along. -/
structure StoredSettings where
  nickname : Option String := none
  customInstructions : Option String := none
  agentName : Option String := none
  agentAvatarUrl : Option String := none
  searchArchived : Option Bool := none
  isSidebarPinned : Option Bool := none
  extra : List (String × String) := []
deriving DecidableEq

/-- A persisted snapshot as parsed from local storage by `loadState`:
every known top-level field may be absent, `activeConversationId` may be
present-and-null, and unknown top-level fields (`extra`) are enumerable
own properties copied by spread. -/
structure PersistedSnapshot where
  conversations : Option (JsRecord Conversation) := none
  archivedConversations : Option (JsRecord Conversation) := none
  activeConversationId : Option (Option String) := none
  tasks : Option (List Task) := none
  settings : Option StoredSettings := none
  extra : List (String × String) := []
deriving DecidableEq

/-- The runtime settings object produced by
`{ ...getInitialState().settings, ...parsedState.settings }`: all known
fields are present, and any unknown persisted fields are carried along
by the spread. -/
structure LoadedSettings where
  nickname : String
  customInstructions : String
  agentName : String
  agentAvatarUrl : String
  searchArchived : Bool
  isSidebarPinned : Bool
  extra : List (String × String)
deriving DecidableEq

/-- The runtime state object produced by `loadState`, including unknown
top-level fields carried along by `{ ...getInitialState(), ...parsedState }`. -/
structure LoadedState where
  conversations : JsRecord Conversation
  archivedConversations : JsRecord Conversation
  activeConversationId : Option String
  tasks : List Task
  settings : LoadedSettings
  extra : List (String × String)
deriving DecidableEq

/-- The settings merge on line 213 of src/index.tsx:
`{ ...getInitialState().settings, ...parsedState.settings }`. Spreading
`undefined` is a no-op, so a missing settings object yields the
defaults; otherwise present known fields win over the defaults and
unknown fields are copied along. -/
def mergeSettingsLoad : Option StoredSettings → LoadedSettings
  | none =>
    { nickname := defaultSettings.nickname
      customInstructions := defaultSettings.customInstructions
      agentName := defaultSettings.agentName
      agentAvatarUrl := defaultSettings.agentAvatarUrl
      searchArchived := defaultSettings.searchArchived
      isSidebarPinned := defaultSettings.isSidebarPinned
      extra := [] }
  | some ps =>
    { nickname := ps.nickname.getD defaultSettings.nickname
      customInstructions := ps.customInstructions.getD defaultSettings.customInstructions
      agentName := ps.agentName.getD defaultSettings.agentName
      agentAvatarUrl := ps.agentAvatarUrl.getD defaultSettings.agentAvatarUrl
      searchArchived := ps.searchArchived.getD defaultSettings.searchArchived
      isSidebarPinned := ps.isSidebarPinned.getD defaultSettings.isSidebarPinned
      extra := ps.extra }

/-- The `loadState` function (src/index.tsx lines 208-218). With no
saved snapshot the initial state is used. Otherwise
`state = { ...getInitialState(), ...parsedState }` takes every present
top-level field (and unknown fields) from the snapshot and defaults the
missing ones, then `state.settings` is re-merged field-wise and
`state.tasks = parsedState.tasks || []`. -/
def loadState : Option PersistedSnapshot → LoadedState
  | none =>
    { conversations := getInitialState.conversations
      archivedConversations := getInitialState.archivedConversations
      activeConversationId := getInitialState.activeConversationId
      tasks := getInitialState.tasks
      settings := mergeSettingsLoad none
      extra := [] }
  | some p =>
    { conversations := p.conversations.getD getInitialState.conversations
      archivedConversations := p.archivedConversations.getD getInitialState.archivedConversations
      activeConversationId := (p.activeConversationId).getD getInitialState.activeConversationId
      tasks := p.tasks.getD []
      settings := mergeSettingsLoad p.settings
      extra := p.extra }

/-! Helper lemmas about the JavaScript-object model. -/

theorem jsHasKey_jsSet_self {α : Type} (m : JsRecord α) (k : String) (v : Option α) :
    jsHasKey (jsSet m k v) k = true := by
  induction m with
  | nil => simp [jsSet, jsHasKey]
  | cons e rest ih =>
    by_cases h : e.1 = k
    · simp [jsSet, jsHasKey, h]
    · simp [jsSet, jsHasKey, h, ih]

theorem jsHasKey_jsDelete_self {α : Type} (m : JsRecord α) (k : String) :
    jsHasKey (jsDelete m k) k = false := by
  induction m with
  | nil => rfl
  | cons e rest ih =>
    by_cases h : e.1 = k
    · simp [jsDelete, h, ih]
    · simp [jsDelete, jsHasKey, h, ih]

theorem jsHasKey_of_keys_cons {α : Type} {m : JsRecord α} {k : String} {rest : List String}
    (h : jsKeys m = k :: rest) : jsHasKey m k = true := by
  cases m with
  | nil => simp [jsKeys] at h
  | cons e es =>
    simp only [jsKeys, List.map_cons, List.cons.injEq] at h
    simp [jsHasKey, h.1]

/-! Helper lemmas about the streamed grounding accumulator. -/

theorem grounding_foldl_eq (chunks : List StreamChunk) (acc : List GroundingChunk) :
    chunks.foldl (fun a c => match c.grounding with | some g => g | none => a) acc
      = (chunks.filterMap StreamChunk.grounding).getLastD acc := by
  induction chunks generalizing acc with
  | nil => rfl
  | cons c rest ih =>
    cases hg : c.grounding with
    | none =>
      simp only [List.foldl_cons, List.filterMap_cons, hg]
      exact ih acc
    | some g =>
      simp only [List.foldl_cons, List.filterMap_cons, hg, List.getLastD_cons]
      exact ih g

theorem finalGrounding_eq (chunks : List StreamChunk) :
    finalGrounding chunks = (chunks.filterMap StreamChunk.grounding).getLastD [] :=
  grounding_foldl_eq chunks []

/-!
C8. Title-synthesis failure. The catch block of
`generateConversationTitle` only logs, so a failed model call leaves the
whole application state (title and history included) untouched.
-/

/-- C8: for every conversation whose title-synthesis model call fails,
the state afterwards is exactly the state before the call — in
particular the conversation keeps its pre-call placeholder title and no
error `HistoryEntry` is appended to its history by the title workflow. -/
theorem c8_title_failure_leaves_state (s : AppState) (convoId : String) :
    generateConversationTitle s convoId none = s := by
  unfold generateConversationTitle
  cases jsGet s.conversations convoId with
  | none => rfl
  | some convo =>
    by_cases h : convo.history.length < 2 <;> simp [h]

/-!
C4. Empty-title task submissions are rejected before mutation.
-/

/-- C4: for every task create/update submission whose trimmed title is
empty, `handleTaskFormSubmit` rejects it with the validation error
notification, performs no state mutation, and performs no persistence
write (`saveState` is not reached). -/
theorem c4_empty_title_rejected (s : AppState) (editingTaskId : Option String)
    (input : TaskFormInput) (now : Nat) (srcConvoId srcMessage : String)
    (h : jsTrim input.title = "") :
    handleTaskFormSubmit s editingTaskId input now srcConvoId srcMessage
      = { state := s, saved := false,
          notice := some ("Task title cannot be empty", NoticeKind.error) } := by
  simp [handleTaskFormSubmit, h]

/-- Witness for C4 at a concrete whitespace-only title. -/
theorem c4_witness :
    handleTaskFormSubmit getInitialState none
        { id := "", title := "   ", notes := "n", status := TaskStatus.todo,
          priority := TaskPriority.low, dueDate := "" } 0 "" ""
      = { state := getInitialState, saved := false,
          notice := some ("Task title cannot be empty", NoticeKind.error) } :=
  c4_empty_title_rejected getInitialState none _ 0 "" "" (by decide)

/-!
C1. A stream failure never commits the partial buffer, but — contrary to
the claim — the synthetic error marker is only rendered in the DOM by
`appendMessage`; it is never appended to the conversation's `history`.
-/

/-- C1 (counterexample): sending `"hi"` over a stream that emits
`"Hello, wo"` and then fails leaves the history with exactly the user
entry: no entry carries the partial text, but the number of model-role
(hence error-marker) entries appended is 0, not 1 as the claim states. -/
theorem c1_counterexample :
    handleFormSubmitHistory [] "hi" [{ text := "Hello, wo", grounding := none }] true
      = [{ role := Role.user, text := "hi", groundingChunks := none }] ∧
    (handleFormSubmitHistory [] "hi" [{ text := "Hello, wo", grounding := none }] true).countP
        (fun e => e.role == Role.model) ≠ 1 := by
  constructor
  · decide
  · decide

/-- C1 (amended): when a send's stream fails mid-stream, the only entry
appended to the conversation's history is the user's message: the
history contains no entry whose text is the partial buffer (provided no
prior entry had that text and the user's message differs from it), and
no synthetic error-marker entry — indeed no model-role entry at all —
is appended to the history; the error message is only rendered in the
transient view. -/
theorem c1_stream_failure_history (history : List HistoryEntry) (rawInput : String)
    (consumed : List StreamChunk) (pbuf : String)
    (hmsg : jsTrim rawInput ≠ "")
    (hdiff : jsTrim rawInput ≠ pbuf)
    (hold : ∀ e ∈ history, e.text ≠ pbuf) :
    handleFormSubmitHistory history rawInput consumed true
      = history ++ [{ role := Role.user, text := jsTrim rawInput, groundingChunks := none }] ∧
    (∀ e ∈ handleFormSubmitHistory history rawInput consumed true, e.text ≠ pbuf) ∧
    (∀ e ∈ (handleFormSubmitHistory history rawInput consumed true).drop history.length,
        e.role = Role.user) := by
  have hrun : handleFormSubmitHistory history rawInput consumed true
      = history ++ [{ role := Role.user, text := jsTrim rawInput, groundingChunks := none }] := by
    simp [handleFormSubmitHistory, hmsg]
  refine ⟨hrun, ?_, ?_⟩
  · intro e he
    rw [hrun] at he
    rcases List.mem_append.mp he with hmem | hmem
    · exact hold e hmem
    · rcases List.mem_singleton.mp hmem with rfl
      simpa using hdiff
  · intro e he
    rw [hrun, List.drop_left] at he
    rcases List.mem_singleton.mp he with rfl
    rfl

/-- Witness for C1's amended theorem at the concrete scenario of the
claim: partial buffer `"Hello, wo"`, user message `"hi"`. -/
theorem c1_witness :
    handleFormSubmitHistory [] "hi" [{ text := "Hello, wo", grounding := none }] true
      = [{ role := Role.user, text := "hi", groundingChunks := none }] ∧
    (∀ e ∈ handleFormSubmitHistory [] "hi" [{ text := "Hello, wo", grounding := none }] true,
        e.text ≠ "Hello, wo") ∧
    (∀ e ∈ (handleFormSubmitHistory [] "hi"
        [{ text := "Hello, wo", grounding := none }] true).drop ([] : List HistoryEntry).length,
        e.role = Role.user) := by
  have h := c1_stream_failure_history [] "hi" [{ text := "Hello, wo", grounding := none }]
    "Hello, wo" (by decide) (by decide) (by intro e he; cases he)
  simpa using h

/-!
C5. Grounding metadata: the loop guard tests JavaScript truthiness of
the array, and an empty array is truthy, so a present-but-empty
grounding array also overwrites — the claim's "empty arrivals do not
win" fails. The committed set is the one carried by the last chunk
whose grounding array is present at all.
-/

/-- The set the claim designates: the grounding array carried by the
last chunk whose present grounding array is non-empty (stated from the
claim's words, for comparison with the code's behaviour). -/
def lastNonemptyGrounding (chunks : List StreamChunk) : Option (List GroundingChunk) :=
  ((chunks.filterMap StreamChunk.grounding).filter (fun l => !l.isEmpty)).getLast?

/-- A concrete grounding citation used in the C5 counterexample. -/
def sampleGroundingChunk : GroundingChunk :=
  { web := some { uri := some "https://example.com", title := some "Example" } }

/-- C5 (counterexample): a stream whose first chunk carries the
grounding set `[sampleGroundingChunk]` and whose second chunk carries a
present-but-empty grounding array commits the empty set with the final
entry, while the last non-empty arrival's set is `[sampleGroundingChunk]`
— the committed metadata differs from what the claim requires. -/
theorem c5_counterexample :
    (handleFormSubmitHistory [] "hi"
        [{ text := "a", grounding := some [sampleGroundingChunk] },
         { text := "b", grounding := some [] }] false).getLast?
      = some { role := Role.model, text := "ab", groundingChunks := some [] } ∧
    lastNonemptyGrounding
        [{ text := "a", grounding := some [sampleGroundingChunk] },
         { text := "b", grounding := some [] }]
      = some [sampleGroundingChunk] ∧
    (some ([] : List GroundingChunk) ≠ some [sampleGroundingChunk]) := by
  refine ⟨by decide, by decide, by decide⟩

/-- C5 (amended): the grounding metadata committed with the final
`HistoryEntry` equals the grounding array carried by the last chunk
whose grounding array was present at all — a present-but-empty array
also overwrites — and is empty when no chunk carried one; chunks with
absent grounding metadata never overwrite. -/
theorem c5_last_present_grounding_wins (history : List HistoryEntry) (rawInput : String)
    (chunks : List StreamChunk) (hmsg : jsTrim rawInput ≠ "") :
    (handleFormSubmitHistory history rawInput chunks false).getLast?
      = some { role := Role.model, text := streamText chunks,
               groundingChunks := some ((chunks.filterMap StreamChunk.grounding).getLastD []) } := by
  simp [handleFormSubmitHistory, hmsg, finalGrounding_eq]

/-- Witness for C5's amended theorem: two chunks, the second with absent
grounding, commit the first chunk's set. -/
theorem c5_witness :
    (handleFormSubmitHistory [] "hi"
        [{ text := "a", grounding := some [sampleGroundingChunk] },
         { text := "b", grounding := none }] false).getLast?
      = some { role := Role.model
               text := streamText
                 [{ text := "a", grounding := some [sampleGroundingChunk] },
                  { text := "b", grounding := none }]
               groundingChunks := some
                 (([{ text := "a", grounding := some [sampleGroundingChunk] },
                    { text := "b", grounding := none }].filterMap
                      StreamChunk.grounding).getLastD []) } :=
  c5_last_present_grounding_wins [] "hi" _ (by decide)

/-!
C2. Archive toggling: membership after one toggle depends only on the
archived-partition membership before it, because `jsSet` always makes
the key present and `jsDelete` always removes it.
-/

theorem toggle_mem (s : AppState) (id : String) :
    jsHasKey (toggleArchiveConversation id s).conversations id
        = jsHasKey s.archivedConversations id ∧
    jsHasKey (toggleArchiveConversation id s).archivedConversations id
        = !(jsHasKey s.archivedConversations id) := by
  cases h : jsHasKey s.archivedConversations id with
  | true =>
    refine ⟨?_, ?_⟩ <;>
      simp [toggleArchiveConversation, h, jsHasKey_jsSet_self, jsHasKey_jsDelete_self]
  | false =>
    refine ⟨?_, ?_⟩ <;>
      simp [toggleArchiveConversation, h, jsHasKey_jsSet_self, jsHasKey_jsDelete_self]

/-- C2: starting from a state where the conversation id lies in exactly
one of the two partitions, after any finite sequence of
`toggleArchiveConversation` calls on that id the id still lies in
exactly one partition (never in both, at every intermediate length `n`
as well), and it lies in its original partition exactly when the number
of calls is even. -/
theorem c2_archive_toggle_parity (s : AppState) (id : String)
    (h : jsHasKey s.conversations id = !(jsHasKey s.archivedConversations id)) (n : Nat) :
    jsHasKey ((toggleArchiveConversation id)^[n] s).conversations id
        = !(jsHasKey ((toggleArchiveConversation id)^[n] s).archivedConversations id) ∧
    jsHasKey ((toggleArchiveConversation id)^[n] s).conversations id
        = (if n % 2 = 0 then jsHasKey s.conversations id
           else !(jsHasKey s.conversations id)) := by
  induction n with
  | zero => simpa using h
  | succ m ih =>
    obtain ⟨ih1, ih2⟩ := ih
    rw [Function.iterate_succ_apply']
    have tm := toggle_mem ((toggleArchiveConversation id)^[m] s) id
    have harch : jsHasKey ((toggleArchiveConversation id)^[m] s).archivedConversations id
        = !(jsHasKey ((toggleArchiveConversation id)^[m] s).conversations id) := by
      rw [ih1, Bool.not_not]
    refine ⟨?_, ?_⟩
    · rw [tm.1, tm.2, harch, Bool.not_not]
    · rw [tm.1, harch, ih2]
      by_cases hm : m % 2 = 0
      · have h2 : ¬((m + 1) % 2 = 0) := by omega
        simp [hm, h2]
      · have h2 : (m + 1) % 2 = 0 := by omega
        simp [hm, h2]

/-- A conversation record with the given id and placeholder fields, for
concrete witness states. -/
def mkConversation (i : String) : Conversation :=
  { id := i, title := "New Chat", history := [], customInstructions := "", createdAt := 0 }

/-- A concrete state with one active conversation `"c1"`. -/
def sampleStateActive : AppState :=
  { conversations := [("c1", some (mkConversation "c1"))]
    archivedConversations := []
    activeConversationId := some "c1"
    tasks := []
    settings := defaultSettings }

/-- Witness for C2 at three toggles of `"c1"` on `sampleStateActive`. -/
theorem c2_witness :
    jsHasKey ((toggleArchiveConversation "c1")^[3] sampleStateActive).conversations "c1"
        = !(jsHasKey ((toggleArchiveConversation "c1")^[3]
            sampleStateActive).archivedConversations "c1") ∧
    jsHasKey ((toggleArchiveConversation "c1")^[3] sampleStateActive).conversations "c1"
        = (if 3 % 2 = 0 then jsHasKey sampleStateActive.conversations "c1"
           else !(jsHasKey sampleStateActive.conversations "c1")) :=
  c2_archive_toggle_parity sampleStateActive "c1" (by decide) 3

/-!
C6. Deleting the active conversation repoints `activeConversationId` at
the first remaining active key, or clears it.
-/

/-- C6: if `activeConversationId` names a conversation in the active
partition, then after (confirmed) deletion of that conversation from the
active partition, `activeConversationId` is the id of some conversation
remaining in the active partition when at least one remains, and `none`
when the active partition became empty. -/
theorem c6_delete_active_conversation (s : AppState) (a : String)
    (h1 : s.activeConversationId = some a) (h2 : jsHasKey s.conversations a = true) :
    ((jsKeys (deleteConversation a false true s).conversations = []) →
        (deleteConversation a false true s).activeConversationId = none) ∧
    (∀ k rest, jsKeys (deleteConversation a false true s).conversations = k :: rest →
        (deleteConversation a false true s).activeConversationId = some k ∧
        jsHasKey (deleteConversation a false true s).conversations k = true) := by
  have hres : deleteConversation a false true s
      = { s with
          conversations := jsDelete s.conversations a,
          activeConversationId :=
            match jsKeys (jsDelete s.conversations a) with
            | [] => none
            | k :: _ => some k } := by
    simp [deleteConversation, h1]
  refine ⟨?_, ?_⟩
  · intro hk
    rw [hres] at hk ⊢
    simp only at hk ⊢
    rw [hk]
  · intro k rest hk
    rw [hres] at hk ⊢
    simp only at hk ⊢
    exact ⟨by rw [hk], jsHasKey_of_keys_cons hk⟩

/-- A concrete state with two active conversations, `"a"` active. -/
def sampleTwoConvoState : AppState :=
  { conversations := [("a", some (mkConversation "a")), ("b", some (mkConversation "b"))]
    archivedConversations := []
    activeConversationId := some "a"
    tasks := []
    settings := defaultSettings }

/-- Witness for C6: deleting active `"a"` repoints to the remaining `"b"`. -/
theorem c6_witness :
    (deleteConversation "a" false true sampleTwoConvoState).activeConversationId = some "b" ∧
    jsHasKey (deleteConversation "a" false true sampleTwoConvoState).conversations "b" = true :=
  (c6_delete_active_conversation sampleTwoConvoState "a" rfl (by decide)).2 "b" [] (by decide)

/-!
C10. Unarchiving and the active conversation id.
-/

/-- C10: (i) when no conversation is active, unarchiving an archived id
makes it the active conversation; (ii) when a (nonempty) id of an
active-partition conversation is already active, unarchiving a different
archived id leaves the active id unchanged. -/
theorem c10_unarchive_sets_active :
    (∀ (s : AppState) (id : String),
        s.activeConversationId = none →
        jsHasKey s.archivedConversations id = true →
        (toggleArchiveConversation id s).activeConversationId = some id) ∧
    (∀ (s : AppState) (a id : String),
        s.activeConversationId = some a → a ≠ "" →
        jsHasKey s.conversations a = true →
        jsHasKey s.archivedConversations id = true → id ≠ a →
        (toggleArchiveConversation id s).activeConversationId = some a) := by
  constructor
  · intro s id hact hmem
    simp [toggleArchiveConversation, hmem, hact, optTruthy]
  · intro s a id hact hne hconv hmem hia
    simp [toggleArchiveConversation, hmem, hact, optTruthy, hne]

/-- A concrete state with an archived conversation `"c2"` and no active
conversation. -/
def sampleArchState : AppState :=
  { conversations := []
    archivedConversations := [("c2", some (mkConversation "c2"))]
    activeConversationId := none
    tasks := []
    settings := defaultSettings }

/-- A concrete state with active `"c1"` and archived `"c2"`. -/
def sampleBothState : AppState :=
  { conversations := [("c1", some (mkConversation "c1"))]
    archivedConversations := [("c2", some (mkConversation "c2"))]
    activeConversationId := some "c1"
    tasks := []
    settings := defaultSettings }

/-- Witness for C10 at the two concrete states. -/
theorem c10_witness :
    (toggleArchiveConversation "c2" sampleArchState).activeConversationId = some "c2" ∧
    (toggleArchiveConversation "c2" sampleBothState).activeConversationId = some "c1" :=
  ⟨c10_unarchive_sets_active.1 sampleArchState "c2" rfl (by decide),
   c10_unarchive_sets_active.2 sampleBothState "c1" "c2" rfl (by decide) (by decide)
     (by decide) (by decide)⟩

/-!
Helper lemmas about the newline split/join pair and the toggle scan.
-/

theorem splitNl_ne_nil (cs : List Char) : splitNl cs ≠ [] := by
  cases cs with
  | nil => simp [splitNl]
  | cons c cs =>
    unfold splitNl
    cases splitNl cs with
    | nil => simp
    | cons l ls => by_cases hc : c = '\n' <;> simp [hc]

theorem joinNl_splitNl (cs : List Char) : joinNl (splitNl cs) = cs := by
  induction cs with
  | nil => rfl
  | cons c cs ih =>
    cases h : splitNl cs with
    | nil => exact absurd h (splitNl_ne_nil cs)
    | cons l ls =>
      rw [h] at ih
      have hsplit : splitNl (c :: cs)
          = if c = '\n' then [] :: l :: ls else (c :: l) :: ls := by
        unfold splitNl
        rw [h]
      by_cases hc : c = '\n'
      · subst hc
        rw [hsplit, if_pos rfl]
        simp only [joinNl, List.nil_append]
        rw [ih]
      · rw [hsplit, if_neg hc]
        cases ls with
        | nil =>
          simp only [joinNl] at ih ⊢
          rw [ih]
        | cons l2 ls2 =>
          simp only [joinNl, List.cons_append] at ih ⊢
          rw [ih]

theorem toggleLinesFrom_ge (checked : Bool) (subtaskIndex : Nat) (ls : List (List Char)) :
    ∀ current, ls.countP isTogglerLine + current ≤ subtaskIndex →
      toggleLinesFrom checked subtaskIndex current ls = ls := by
  induction ls with
  | nil => intro current _; rfl
  | cons l rest ih =>
    intro current h
    unfold toggleLinesFrom
    by_cases hl : isTogglerLine l
    · rw [List.countP_cons_of_pos _ _ hl] at h
      have hne : current ≠ subtaskIndex := by omega
      simp only [hl, if_pos rfl, if_neg hne, ite_true]
      rw [ih (current + 1) (by omega)]
    · rw [List.countP_cons_of_neg _ _ hl] at h
      simp only [hl, Bool.false_eq_true, if_false]
      rw [ih current h]

theorem toggleSubtaskNotes_oob (notes : String) (subtaskIndex : Nat) (checked : Bool)
    (h : countTogglerLines notes ≤ subtaskIndex) :
    toggleSubtaskNotes notes subtaskIndex checked = notes := by
  unfold toggleSubtaskNotes
  rw [toggleLinesFrom_ge checked subtaskIndex (splitNl notes.data) 0
    (by simpa [countTogglerLines] using h)]
  rw [joinNl_splitNl]

theorem updateFirstTask_eq_self (ts : List Task) (tid : String) (f : Task → Task)
    (h : ∀ t ∈ ts, t.id = tid → f t = t) :
    updateFirstTask ts tid f = ts := by
  induction ts with
  | nil => rfl
  | cons t rest ih =>
    unfold updateFirstTask
    by_cases ht : t.id == tid
    · have hft : f t = t := h t (List.mem_cons_self t rest) (by simpa using ht)
      simp [ht, hft]
    · simp only [ht, Bool.false_eq_true, if_false]
      rw [ih (fun u hu hid => h u (List.mem_cons_of_mem t hu) hid)]

/-!
C9. An out-of-range subtask index leaves the state untouched: the scan
never rewrites a line, and split-then-join is the identity.
-/

/-- C9: for every task of the state whose id matches and whose notes
contain at most `subtaskIndex` lines starting (after trimming) with
`- [`, the subtask-toggle handler leaves the whole application state —
the notes string byte-for-byte included — exactly unchanged. -/
theorem c9_toggle_out_of_range (s : AppState) (taskId : String) (subtaskIndex : Nat)
    (checked : Bool)
    (h : ∀ t ∈ s.tasks, t.id = taskId → countTogglerLines t.notes ≤ subtaskIndex) :
    toggleSubtaskState s taskId subtaskIndex checked = s := by
  unfold toggleSubtaskState
  cases hf : s.tasks.find? (fun t => t.id == taskId) with
  | none => rfl
  | some t =>
    have hupd : updateFirstTask s.tasks taskId
        (fun t => { t with notes := toggleSubtaskNotes t.notes subtaskIndex checked })
          = s.tasks := by
      apply updateFirstTask_eq_self
      intro u hu hid
      have hnotes := toggleSubtaskNotes_oob u.notes subtaskIndex checked (h u hu hid)
      simp [hnotes]
    simp [hupd]

/-- A concrete task whose notes contain one checklist line. -/
def sampleTask : Task :=
  { id := "t1", title := "T", notes := "- [ ] a\nplain", status := TaskStatus.todo,
    priority := TaskPriority.medium, dueDate := none, createdAt := 0,
    sourceConversationId := none, sourceMessageText := none }

/-- A concrete state holding `sampleTask`. -/
def sampleTaskState : AppState :=
  { conversations := []
    archivedConversations := []
    activeConversationId := none
    tasks := [sampleTask]
    settings := defaultSettings }

/-- Witness for C9: toggling index 5 of a one-checklist-line task is a
no-op on the state. -/
theorem c9_witness : toggleSubtaskState sampleTaskState "t1" 5 true = sampleTaskState :=
  c9_toggle_out_of_range sampleTaskState "t1" 5 true (by decide)

/-!
C3. The decoder counts lines matching the regex `/^- \[( |x)\] /`, but
the toggle handler counts lines whose trimmed form merely starts with
`- [`; when the two predicates disagree the handler rewrites the wrong
line. The following concrete run exhibits the divergence.
-/

/-- C3 (code-bug evaluation): on notes `"- [ ]x junk\n- [ ] a"` the
decoder recognizes exactly one checklist line, `- [ ] a`, as subtask 0,
yet toggling index 0 rewrites the non-checklist line `- [ ]x junk` to
`- [x]x junk` and leaves the recognized line `- [ ] a` unchanged,
because the handler's line predicate (`startsWith '- ['` after trim) is
looser than the decoder's regex. -/
theorem c3_toggle_mismatch_eval :
    decodeSubtasks "- [ ]x junk\n- [ ] a" = [(false, "a")] ∧
    toggleSubtaskNotes "- [ ]x junk\n- [ ] a" 0 true = "- [x]x junk\n- [ ] a" := by
  refine ⟨by decide, by decide⟩

/-!
C7. Loading merges persisted values over defaults, but object spread
copies unknown persisted fields into the loaded state rather than
dropping them.
-/

/-- A persisted snapshot carrying an unknown settings field and an
unknown top-level field. -/
def c7Snapshot : PersistedSnapshot :=
  { settings := some { nickname := some "N", extra := [("mystery", "1")] }
    extra := [("topUnknown", "2")] }

/-- C7 (counterexample): loading `c7Snapshot` produces a state whose
settings object still carries the unknown persisted field `mystery` and
whose top level still carries the unknown field `topUnknown` — unknown
fields are spread-copied into the loaded state, not ignored. -/
theorem c7_counterexample :
    (loadState (some c7Snapshot)).settings.extra = [("mystery", "1")] ∧
    (loadState (some c7Snapshot)).extra = [("topUnknown", "2")] ∧
    ([("mystery", "1")] : List (String × String)) ≠ [] := by
  refine ⟨by decide, by decide, by decide⟩

/-- C7 (amended): loading an absent snapshot yields the defaults; a
snapshot without a settings object yields default settings; and for a
snapshot with a settings object every known settings field takes the
persisted value when present and the default value when missing, while
unknown fields — in the settings object and at top level — are carried
into the loaded state rather than dropped. -/
theorem c7_load_merges_defaults :
    (loadState none
      = { conversations := [], archivedConversations := [], activeConversationId := none,
          tasks := [],
          settings := { nickname := "You", customInstructions := "", agentName := "Gemini",
                        agentAvatarUrl := "", searchArchived := false,
                        isSidebarPinned := false, extra := [] },
          extra := [] }) ∧
    (∀ p : PersistedSnapshot, p.settings = none →
        (loadState (some p)).settings
          = { nickname := "You", customInstructions := "", agentName := "Gemini",
              agentAvatarUrl := "", searchArchived := false, isSidebarPinned := false,
              extra := [] }) ∧
    (∀ (p : PersistedSnapshot) (ps : StoredSettings), p.settings = some ps →
        (loadState (some p)).settings.nickname = ps.nickname.getD "You" ∧
        (loadState (some p)).settings.customInstructions = ps.customInstructions.getD "" ∧
        (loadState (some p)).settings.agentName = ps.agentName.getD "Gemini" ∧
        (loadState (some p)).settings.agentAvatarUrl = ps.agentAvatarUrl.getD "" ∧
        (loadState (some p)).settings.searchArchived = ps.searchArchived.getD false ∧
        (loadState (some p)).settings.isSidebarPinned = ps.isSidebarPinned.getD false ∧
        (loadState (some p)).settings.extra = ps.extra ∧
        (loadState (some p)).extra = p.extra) := by
  refine ⟨rfl, ?_, ?_⟩
  · intro p hp
    simp [loadState, mergeSettingsLoad, hp, defaultSettings]
  · intro p ps hp
    refine ⟨?_, ?_, ?_, ?_, ?_, ?_, ?_, ?_⟩ <;>
      simp [loadState, mergeSettingsLoad, hp, defaultSettings]

/-- Witness for C7's amended theorem at `c7Snapshot`: the present
`nickname` wins, the missing `agentName` defaults, the unknown top-level
field is retained. -/
theorem c7_witness :
    (loadState (some c7Snapshot)).settings.nickname = "N" ∧
    (loadState (some c7Snapshot)).settings.agentName = "Gemini" ∧
    (loadState (some c7Snapshot)).extra = [("topUnknown", "2")] := by
  have h := c7_load_merges_defaults.2.2 c7Snapshot
    { nickname := some "N", extra := [("mystery", "1")] } rfl
  exact ⟨h.1, h.2.2.1, h.2.2.2.2.2.2.2⟩

end TaskAgent
